import Mathlib

/-!
Verification of the message-aggregation and dispatch engine of
CharacterAI-Discord-Bridge (`AI_utils.py`, `boot.py`).

Shallow embedding conventions:
* The persisted cache is a `List CachedMessage` (the JSON file content,
  read and written as a whole sequence).
* `time.time()` is modelled as an abstract integer clock; callers pass the
  current time explicitly.
* External collaborators (the Discord client, the Character.AI client,
  `utils.test_internet`, `utils.remove_emoji`) are modelled as oracles in an
  environment record; fallible calls return `Except Unit _`.
* Exceptions are modelled by the control flow they induce: every branch of
  the Python `try/except/finally` structure of `AI_send_message` is mirrored
  explicitly, including the `finally` block running on the early `return`
  and the inner `except` swallowing reconciliation errors.
-/

/-- One record of the persisted cache file, per the bit-exact file contract:
`{"username": ..., "name": ..., "message": ...}`. -/
structure MsgRecord where
  username : String
  name : String
  message : String
deriving DecidableEq, Repr

/-- A cached message: a record plus the optional nested `"reply_message"`
record of the same shape. Python compares these by value (`x not in list`),
which `DecidableEq` mirrors. -/
structure CachedMessage where
  info : MsgRecord
  reply_message : Option MsgRecord
deriving DecidableEq, Repr

/-- The configuration fields of `config.yml` consumed by `AI_utils.py`.
`channel_bot_chat = none` models the key being absent from the YAML map
(in which case `dict.get` supplies the default `[None]`). -/
structure Config where
  channel_bot_chat : Option (List Nat)
  messages_cache : String
  remove_emojis_AI : Bool
  send_message_line_by_line : Bool

/-- The mutable state of `discord_AI_bot` together with the content of the
configured cache file (the only durable state the coordinator touches). -/
structure BotState where
  awaiting_response : Bool
  last_message_time : Int
  cacheFile : List CachedMessage
deriving DecidableEq, Repr

/-- Lines 175-176 of `AI_utils.py`:
`remove_messages = [x for x in current_cache if x not in cached_data]` —
keep, in order, the entries of the re-read cache that are not value-equal
to any entry of the dispatch snapshot. -/
def removeMessages (current_cache cached_data : List CachedMessage) :
    List CachedMessage :=
  current_cache.filter (fun x => decide (x ∉ cached_data))

/-- Line 204 of `AI_utils.py`:
`(time.time() - self.last_message_time >= 7 or cache_count >= 5) and cache_count >= 1`. -/
def monitor_trigger (now last : Int) (cache_count : Nat) : Bool :=
  (decide (now - last ≥ 7) || decide (cache_count ≥ 5)) && decide (cache_count ≥ 1)

/-- Lines 196-207 of `AI_utils.py`: a monitor tick dispatches only when the
`awaiting_response` pre-check passes and the trigger condition holds. -/
def monitor_tick_triggers (awaiting_response : Bool) (now last : Int)
    (cache_count : Nat) : Bool :=
  !awaiting_response && monitor_trigger now last cache_count

/-- Line 199 of `AI_utils.py`: the inactivity monitor opens the fixed
literal path, not the configured one. -/
def monitor_cache_path : String := "messages_cache.json"

/-- Lines 135, 173, 178 of `AI_utils.py`: the dispatch coordinator reads and
writes the cache at `config_yaml["Discord"]["messages_cache"]`. -/
def dispatch_cache_path (cfg : Config) : String := cfg.messages_cache

/-- Lines 90, 108 of `AI_utils.py`: the message collector captures into
`config_yaml["Discord"]["messages_cache"]`. -/
def collector_cache_path (cfg : Config) : String := cfg.messages_cache

/-- Lines 198-201 of `AI_utils.py`: the cache count seen by the monitor is the length
of the sequence stored at the literal path, for a file system `fs` mapping
paths to parsed cache content. -/
def monitor_cache_count (fs : String → List CachedMessage) : Nat :=
  (fs monitor_cache_path).length

/-- Lines 133-135 of `AI_utils.py`: the dispatch snapshot is the sequence
stored at the configured path. -/
def dispatch_snapshot (cfg : Config) (fs : String → List CachedMessage) :
    List CachedMessage :=
  fs (dispatch_cache_path cfg)

/-- Lines 125-126 of `AI_utils.py`:
`config_yaml.get("Discord", {}).get("channel_bot_chat", [None])[0]`.
When the key is absent the default `[None]` is indexed, giving `None`
(`Except.ok none`); when the key holds an explicitly empty list, `[][0]`
raises `IndexError` (`Except.error ()`). -/
def response_channel_id (cfg : Config) : Except Unit (Option Nat) :=
  match cfg.channel_bot_chat with
  | none => Except.ok none
  | some [] => Except.error ()
  | some (c :: _) => Except.ok (some c)

/-- The external collaborators and concurrent events of one dispatch cycle.
`arrivals` are the entries appended to the cache file by the message
collector between the snapshot read (line 134) and the reconciliation
re-read (line 172); `now` is the clock value at the `finally` block. -/
structure Env where
  internet : Bool
  get_channel : Option Nat → Option Nat
  cai_response : List CachedMessage → Except Unit String
  remove_emoji : String → Except Unit String
  send_ok : Bool
  arrivals : List CachedMessage
  now : Int

/-- The only exception that escapes `AI_send_message` itself: the
`IndexError` raised at line 126 before the lock is taken. Everything inside
the `try` is caught at line 163, and reconciliation errors at line 181. -/
inductive PyExc where
  | indexError
deriving DecidableEq, Repr

/-- The observable outcome of one `AI_send_message` call: the bot state and
cache file afterwards, the messages actually delivered to the channel,
whether the AI client was invoked, whether the critical "channel not found"
log at lines 160-162 fired, and an exception escaping the coroutine. -/
structure DispatchResult where
  state : BotState
  sent : List String
  ai_called : Bool
  critical_logged : Bool
  raised : Option PyExc
deriving DecidableEq, Repr

/-- Lines 152-159 of `AI_utils.py`: when `send_message_line_by_line` is
set, the reply is split on `"\n"` and each line with non-blank `strip()` is
sent as its own message (the line itself, not its stripped form); otherwise
the whole reply is one message. -/
def sendLines (line_by_line : Bool) (response : String) : List String :=
  if line_by_line then
    (response.splitOn "\n").filter (fun l => decide (l.trim ≠ ""))
  else [response]

/-- The `try` block of `AI_send_message` (lines 131-162), entered with the
resolved `response_channel` and the current cache file content. Returns
(snapshot bound to `cached_data`, messages sent, AI called, critical
logged). Every exception inside is caught at line 163, so the `finally`
always runs next; a `none` snapshot means the exception fired before line
134 bound `cached_data`, leaving it undefined for the `finally` block.
Entering `response_channel.typing()` at line 132 raises `AttributeError`
when the channel is `None`, so the critical-log branch at lines 160-162 can
only run with a non-`None` channel. -/
def tryBody (cfg : Config) (env : Env) (response_channel : Option Nat)
    (cache : List CachedMessage) :
    Option (List CachedMessage) × List String × Bool × Bool :=
  match response_channel with
  | none => (none, [], false, false)
  | some _ =>
    let cached_data := cache
    if cached_data.isEmpty then
      (some cached_data, [], false, false)
    else
      match env.cai_response cached_data with
      | Except.error _ => (some cached_data, [], true, false)
      | Except.ok resp0 =>
        match (if cfg.remove_emojis_AI then env.remove_emoji resp0
               else Except.ok resp0) with
        | Except.error _ => (some cached_data, [], true, false)
        | Except.ok response =>
          match response_channel with
          | some _ =>
            if env.send_ok then
              (some cached_data, sendLines cfg.send_message_line_by_line response,
               true, false)
            else (some cached_data, [], true, false)
          | none => (some cached_data, [], true, true)

/-- `AI_send_message` (lines 119-186 of `AI_utils.py`). Sets
`awaiting_response`, resolves the destination channel id, and under the
lock: checks connectivity, runs the `try` body, and then the `finally`
block — clear `awaiting_response`, refresh `last_message_time`, re-read the
cache and persist `removeMessages current_cache cached_data`. When
`cached_data` was never bound, the re-use at line 176 raises `NameError`,
caught at line 181, so no write happens. In the no-internet branch only
`awaiting_response` is cleared. The final cache file content starts from
`st.cacheFile ++ env.arrivals` (concurrent collector appends) and is
overwritten only by the reconciliation write. -/
def AI_send_message (cfg : Config) (env : Env) (st : BotState) :
    DispatchResult :=
  let st1 : BotState := { st with awaiting_response := true }
  match response_channel_id cfg with
  | Except.error _ =>
    { state := { st1 with cacheFile := st1.cacheFile ++ env.arrivals },
      sent := [], ai_called := false, critical_logged := false,
      raised := some PyExc.indexError }
  | Except.ok cid =>
    let response_channel := env.get_channel cid
    if env.internet then
      let tb := tryBody cfg env response_channel st1.cacheFile
      let current_cache := st1.cacheFile ++ env.arrivals
      let newCache :=
        match tb.1 with
        | some cached_data => removeMessages current_cache cached_data
        | none => current_cache
      { state := { awaiting_response := false, last_message_time := env.now,
                   cacheFile := newCache },
        sent := tb.2.1, ai_called := tb.2.2.1, critical_logged := tb.2.2.2,
        raised := none }
    else
      { state := { st1 with
                   awaiting_response := false,
                   cacheFile := st1.cacheFile ++ env.arrivals },
        sent := [], ai_called := false, critical_logged := false,
        raised := none }

/-- A Discord author as used by `read_channel_messages`: `username` is the
platform handle stored in the cache record, `global_name` may be absent
(line 78 falls back to `name`). -/
structure Author where
  id : Nat
  username : String
  global_name : Option String
  name : String
deriving DecidableEq, Repr

/-- The part of a fetched referenced message that lines 86-99 use. -/
structure RefMessage where
  author : Author
  content : String
deriving DecidableEq, Repr

/-- An inbound channel message event as consumed by
`read_channel_messages`: channel, author, content, and the optional
`message.reference` (a message id to fetch). -/
structure InboundMessage where
  channel_id : Nat
  author : Author
  content : String
  reference : Option Nat
deriving DecidableEq, Repr

/-- Line 78 of `AI_utils.py`:
`message.author.global_name or message.author.name`. -/
def authorDisplayName (a : Author) : String := a.global_name.getD a.name

/-- Python `str.startswith(p)`: the first `len(p)` characters of `s` equal
`p`. Stated over the character sequences so that it evaluates by kernel
reduction. -/
def strStartsWith (s p : String) : Bool :=
  decide (s.data.take p.data.length = p.data)

/-- Line 73 of `AI_utils.py`: `message.content.startswith(("#", "//"))`. -/
def startsWithCommentMarker (s : String) : Bool :=
  strStartsWith s "#" || strStartsWith s "//"

/-- Modelled from the spec: `utils.capture_message` lives in `utils.py`,
which is not under `src/`. Per the spec, acceptance "appends a
CachedMessage to the Cache Store (load-modify-store of the whole
sequence)", the persisted record being `{"username","name","message"}` with
an optional nested `"reply_message"` of the same shape. -/
def capture_message (cache : List CachedMessage) (message_info : MsgRecord)
    (reply : Option MsgRecord) : List CachedMessage :=
  cache ++ [⟨message_info, reply⟩]

/-- `read_channel_messages` (lines 64-117 of `AI_utils.py`). Accepts the
event only when the channel is watched, the author is not the bot, and the
content does not start with a comment marker. With a reply reference it
fetches the referenced message; when the fetch raises, the `except` at
lines 102-104 only logs — no capture happens at all. Line 115 refreshes
`last_message_time` on every accepted path, including the failed fetch. -/
def read_channel_messages (cfg : Config) (client_user_id : Nat)
    (fetch_message : Nat → Except Unit RefMessage)
    (message : InboundMessage) (now : Int) (st : BotState) : BotState :=
  if message.channel_id ∈ cfg.channel_bot_chat.getD [] ∧
     message.author.id ≠ client_user_id ∧
     startsWithCommentMarker message.content = false then
    let author_name := authorDisplayName message.author
    let message_info : MsgRecord :=
      ⟨message.author.username, author_name, message.content⟩
    let st' :=
      match message.reference with
      | some refId =>
        match fetch_message refId with
        | Except.ok ref_message =>
          let reply : MsgRecord :=
            ⟨ref_message.author.username, authorDisplayName ref_message.author,
             ref_message.content⟩
          { st with cacheFile := capture_message st.cacheFile message_info (some reply) }
        | Except.error _ => st
      | none =>
        { st with cacheFile := capture_message st.cacheFile message_info none }
    { st' with last_message_time := now }
  else st

/-- The phase of one task attempting a dispatch: `idle` before the attempt,
`waiting` after line 124 while blocked on `response_lock.acquire`,
`critical` while holding the lock (lines 130-186: snapshot, AI call,
delivery, reconciliation), `done` after the `async with` released it. -/
inductive TaskPhase where
  | idle
  | waiting
  | critical
  | done
deriving DecidableEq, Repr

/-- How many of the tasks are inside the lock-guarded critical section. -/
def critCount (s : List TaskPhase) : Nat :=
  (s.filter (fun p => p == TaskPhase.critical)).length

/-- Interleaving semantics of N concurrent `AI_send_message` attempts
sharing the single `asyncio.Lock` of `discord_AI_bot.__init__` (line 16).
A task may start its attempt at any time; `response_lock.acquire` (the
`async with` at line 129) completes only when no task holds the lock; a
task holding the lock may leave the critical section, releasing it. -/
inductive DispatchStep : List TaskPhase → List TaskPhase → Prop where
  | start (l r : List TaskPhase) :
      DispatchStep (l ++ TaskPhase.idle :: r) (l ++ TaskPhase.waiting :: r)
  | acquire (l r : List TaskPhase)
      (h : critCount (l ++ TaskPhase.waiting :: r) = 0) :
      DispatchStep (l ++ TaskPhase.waiting :: r) (l ++ TaskPhase.critical :: r)
  | release (l r : List TaskPhase) :
      DispatchStep (l ++ TaskPhase.critical :: r) (l ++ TaskPhase.done :: r)

/-- The configurations reachable from `n` tasks all idle, under any
interleaving of the steps above. -/
inductive DispatchReachable : List TaskPhase → Prop where
  | init (n : Nat) : DispatchReachable (List.replicate n TaskPhase.idle)
  | step {s t : List TaskPhase} :
      DispatchReachable s → DispatchStep s t → DispatchReachable t

-- Concrete sample messages used by counterexamples and witnesses.

def msg1 : CachedMessage := ⟨⟨"alice", "Alice", "hello"⟩, none⟩

def msg2 : CachedMessage := ⟨⟨"bob", "Bob", "hi there"⟩, none⟩

def msg3 : CachedMessage := ⟨⟨"carol", "Carol", "late arrival"⟩, none⟩

/-- Concrete configuration whose `channel_bot_chat` key holds an explicitly
empty list. -/
def cfgEmptyChannels : Config := ⟨some [], "messages_cache.json", false, false⟩

/-- Concrete configuration used by several dispatch scenarios. -/
def cfgMain : Config := ⟨some [99], "messages_cache.json", false, true⟩

/-- Concrete dispatch environment: channel 99 resolves, delivery fails
(`send_ok = false`), `msg3` arrives during the dispatch. -/
def envFail : Env :=
  ⟨true, fun o => o, fun _ => Except.ok "reply", fun s => Except.ok s,
   false, [msg3], 100⟩

/-- Concrete environment where everything succeeds and nothing arrives. -/
def envQuiet : Env :=
  ⟨true, fun o => o, fun _ => Except.ok "reply", fun s => Except.ok s,
   true, [], 100⟩

/-- Concrete environment in which the destination channel cannot be
resolved: `client.get_channel` returns `None` for every id. -/
def envNoChannel : Env :=
  ⟨true, fun _ => none, fun _ => Except.ok "reply", fun s => Except.ok s,
   true, [], 100⟩

/-- Concrete bot state with an empty cache at snapshot time. -/
def stEmpty : BotState := ⟨false, 0, []⟩

/-- Concrete collector configuration: watched channel 5 (the bot id used
alongside it is 7). -/
def cfgCollector : Config := ⟨some [5], "messages_cache.json", false, false⟩

/-- A concrete inbound message carrying a reply reference. -/
def inboundWithRef : InboundMessage :=
  ⟨5, ⟨1, "alice", none, "Alice"⟩, "hello there", some 42⟩

/-- C8: reconciliation is a no-op on disjoint inputs — for every cache `C`
and snapshot `S` such that no entry of `C` is a member of `S`, the remainder
computed at lines 175-176 equals `C` unchanged, same entries and order. -/
theorem removeMessages_disjoint_noop (C S : List CachedMessage)
    (h : ∀ x ∈ C, x ∉ S) : removeMessages C S = C := by
  unfold removeMessages
  rw [List.filter_eq_self]
  intro a ha
  simpa using h a ha

/-- Witness for C8 at a concrete disjoint cache and snapshot. -/
theorem removeMessages_disjoint_noop_witness :
    removeMessages [msg1, msg2] [msg3] = [msg1, msg2] :=
  removeMessages_disjoint_noop [msg1, msg2] [msg3] (by decide)

/-- C1 (counterexample): with snapshot `[msg1, msg2]` and a value-equal
duplicate of `msg1` arriving after the snapshot (re-read cache
`[msg1, msg2, msg1]`), the remainder is `[]`, not the `[msg1]` the claim
predicts — the post-snapshot duplicate is removed as well. -/
theorem reconcile_duplicate_counterexample :
    removeMessages ([msg1, msg2] ++ [msg1]) [msg1, msg2] = [] ∧
    removeMessages ([msg1, msg2] ++ [msg1]) [msg1, msg2] ≠ [msg1] := by
  constructor
  · decide
  · decide

/-- C1 (amended): the remainder keeps, in order, exactly the entries of the
re-read cache that are not value-equal to any snapshot entry; in particular
post-snapshot arrivals are preserved in order whenever none of them is
value-equal to a snapshot entry. Value-equal duplicates of snapshot entries
are removed along with the snapshot. -/
theorem reconcile_removes_snapshot_preserves_new
    (snapshot new : List CachedMessage) (h : ∀ x ∈ new, x ∉ snapshot) :
    removeMessages (snapshot ++ new) snapshot = new := by
  unfold removeMessages
  rw [List.filter_append]
  have h1 : snapshot.filter (fun x => decide (x ∉ snapshot)) = [] := by
    rw [List.filter_eq_nil_iff]
    intro a ha
    simp [ha]
  have h2 : new.filter (fun x => decide (x ∉ snapshot)) = new := by
    rw [List.filter_eq_self]
    intro a ha
    simpa using h a ha
  rw [h1, h2, List.nil_append]

/-- Witness for C1 (amended): the example from the spec, `Cache=[m1,m2]`,
snapshot `[m1,m2]`, `m3` arrives during dispatch, final cache `[m3]`. -/
theorem reconcile_removes_snapshot_preserves_new_witness :
    removeMessages ([msg1, msg2] ++ [msg3]) [msg1, msg2] = [msg3] :=
  reconcile_removes_snapshot_preserves_new [msg1, msg2] [msg3] (by decide)

/-- C2: on a monitor tick taken with `awaiting_response = false`, dispatch
is triggered iff the cache count `N` satisfies `N ≥ 1` and either the idle
duration `now - last ≥ 7` or `N ≥ 5` (line 204 of `AI_utils.py`). -/
theorem monitor_tick_trigger_iff (now last : Int) (n : Nat) :
    monitor_tick_triggers false now last n = true ↔
      (1 ≤ n ∧ (7 ≤ now - last ∨ 5 ≤ n)) := by
  simp only [monitor_tick_triggers, monitor_trigger, Bool.not_false,
    Bool.true_and, Bool.and_eq_true, Bool.or_eq_true, decide_eq_true_eq]
  tauto

/-- C9: the inactivity monitor counts cache entries from the fixed literal
path `"messages_cache.json"` (line 199), while dispatch and collector use
the configured `messages_cache` path; for every configuration whose cache
path differs from the literal, trigger decisions read a different file than
the one dispatched and reconciled, and a file system exists on which the
counted length and the dispatched snapshot length disagree. -/
theorem monitor_reads_fixed_path (cfg : Config)
    (h : cfg.messages_cache ≠ "messages_cache.json") :
    dispatch_cache_path cfg ≠ monitor_cache_path ∧
    collector_cache_path cfg ≠ monitor_cache_path ∧
    ∃ fs : String → List CachedMessage,
      monitor_cache_count fs ≠ (dispatch_snapshot cfg fs).length := by
  refine ⟨h, h, ⟨fun p => if p = monitor_cache_path then [msg1] else [], ?_⟩⟩
  simp only [monitor_cache_count, dispatch_snapshot, dispatch_cache_path,
    monitor_cache_path, if_pos rfl]
  rw [if_neg h]
  simp

/-- Witness for C9 at a concrete configuration with a non-default path. -/
theorem monitor_reads_fixed_path_witness :
    dispatch_cache_path ⟨some [99], "my_cache.json", false, false⟩ ≠
      monitor_cache_path :=
  (monitor_reads_fixed_path ⟨some [99], "my_cache.json", false, false⟩
    (by decide)).1

/-- C10 (counterexample): with an explicitly empty configured
watched-channel list, `[...][0]` at line 126 raises `IndexError`; the
resolved destination is not the `None` the claim predicts for an empty
list (only a missing key yields `None` via the default `[None]`). -/
theorem response_channel_empty_list_counterexample :
    response_channel_id cfgEmptyChannels = Except.error () ∧
    response_channel_id cfgEmptyChannels ≠ Except.ok none := by
  constructor
  · rfl
  · intro h
    simp [cfgEmptyChannels, response_channel_id] at h

/-- C10 (amended): the destination channel id is the head of the configured
watched-channel list, independent of the cached messages; it is `None` when
the key is missing (default `[None]`); an explicitly empty list raises
`IndexError`, which escapes `AI_send_message` before the lock is taken. -/
theorem response_channel_first_or_default (cfg : Config) :
    (∀ c rest, cfg.channel_bot_chat = some (c :: rest) →
        response_channel_id cfg = Except.ok (some c)) ∧
    (cfg.channel_bot_chat = none →
        response_channel_id cfg = Except.ok none) ∧
    (cfg.channel_bot_chat = some [] →
        response_channel_id cfg = Except.error () ∧
        ∀ env st, (AI_send_message cfg env st).raised =
          some PyExc.indexError) := by
  refine ⟨?_, ?_, ?_⟩
  · intro c rest h
    simp [response_channel_id, h]
  · intro h
    simp [response_channel_id, h]
  · intro h
    have he : response_channel_id cfg = Except.error () := by
      simp [response_channel_id, h]
    refine ⟨he, ?_⟩
    intro env st
    simp [AI_send_message, he]

/-- Witness for C10 (amended) at a concrete two-element channel list. -/
theorem response_channel_first_or_default_witness :
    response_channel_id ⟨some [42, 43], "messages_cache.json", false, false⟩ =
      Except.ok (some 42) :=
  (response_channel_first_or_default
    ⟨some [42, 43], "messages_cache.json", false, false⟩).1 42 [43] rfl

/-- Helper: `critCount` distributes over append. -/
theorem critCount_append (l r : List TaskPhase) :
    critCount (l ++ r) = critCount l + critCount r := by
  simp [critCount, List.filter_append]

/-- Helper: an idle head adds nothing to `critCount`. -/
theorem critCount_cons_idle (r : List TaskPhase) :
    critCount (TaskPhase.idle :: r) = critCount r := by
  simp [critCount, List.filter_cons]

/-- Helper: a waiting head adds nothing to `critCount`. -/
theorem critCount_cons_waiting (r : List TaskPhase) :
    critCount (TaskPhase.waiting :: r) = critCount r := by
  simp [critCount, List.filter_cons]

/-- Helper: a done head adds nothing to `critCount`. -/
theorem critCount_cons_done (r : List TaskPhase) :
    critCount (TaskPhase.done :: r) = critCount r := by
  simp [critCount, List.filter_cons]

/-- Helper: a critical head adds one to `critCount`. -/
theorem critCount_cons_critical (r : List TaskPhase) :
    critCount (TaskPhase.critical :: r) = critCount r + 1 := by
  simp [critCount, List.filter_cons]

/-- Helper: all-idle configurations have no task in the critical section. -/
theorem critCount_replicate_idle (n : Nat) :
    critCount (List.replicate n TaskPhase.idle) = 0 := by
  induction n with
  | zero => rfl
  | succ k ih =>
    rw [List.replicate_succ, critCount_cons_idle, ih]

/-- Helper: each interleaving step keeps at most one task in the
lock-guarded critical section. -/
theorem dispatchStep_preserves_mutex {s t : List TaskPhase}
    (h : DispatchStep s t) (hs : critCount s ≤ 1) : critCount t ≤ 1 := by
  cases h with
  | start l r =>
    rw [critCount_append, critCount_cons_idle] at hs
    rw [critCount_append, critCount_cons_waiting]
    omega
  | acquire l r hfree =>
    rw [critCount_append, critCount_cons_waiting] at hfree
    rw [critCount_append, critCount_cons_critical]
    omega
  | release l r =>
    rw [critCount_append, critCount_cons_critical] at hs
    rw [critCount_append, critCount_cons_done]
    omega

/-- C6: dispatch is mutually exclusive — in every configuration reachable
under any interleaving of N concurrent dispatch attempts sharing the
`response_lock` of `discord_AI_bot`, at most one task is inside the
critical section (snapshot, AI call, delivery, reconciliation); no two
dispatches overlap. -/
theorem dispatch_mutual_exclusion (s : List TaskPhase)
    (h : DispatchReachable s) : critCount s ≤ 1 := by
  induction h with
  | init n => rw [critCount_replicate_idle]; omega
  | step _ hstep ih => exact dispatchStep_preserves_mutex hstep ih

/-- Witness for C6 at the initial configuration of three attempts. -/
theorem dispatch_mutual_exclusion_witness :
    critCount (List.replicate 3 TaskPhase.idle) ≤ 1 :=
  dispatch_mutual_exclusion _ (DispatchReachable.init 3)

/-- Helper: whenever the resolved channel is non-`None`, the `try` body
reaches line 134 and binds `cached_data` to the cache content read there,
whatever happens afterwards. -/
theorem tryBody_fst_some (cfg : Config) (env : Env) (rc : Nat)
    (cache : List CachedMessage) :
    (tryBody cfg env (some rc) cache).1 = some cache := by
  simp only [tryBody]
  by_cases h1 : cache.isEmpty
  · simp [h1]
  · cases h2 : env.cai_response cache with
    | error e => simp [h1, h2]
    | ok resp0 =>
      by_cases h3 : cfg.remove_emojis_AI
      · cases h4 : env.remove_emoji resp0 with
        | error e => simp [h1, h2, h3, h4]
        | ok response =>
          by_cases h5 : env.send_ok <;> simp [h1, h2, h3, h4, h5]
      · by_cases h5 : env.send_ok <;> simp [h1, h2, h3, h5]

/-- C3: for every dispatch whose snapshot was successfully read (internet
up, destination channel resolved) and which fails in the AI call, emoji
stripping, or delivery, the `finally` block still clears
`awaiting_response`, refreshes `last_message_time`, and persists the
remainder `removeMessages (re-read cache) snapshot`. -/
theorem dispatch_failure_still_reconciles (cfg : Config) (env : Env)
    (st : BotState) (c : Nat) (rest : List Nat) (ch : Nat)
    (hchan : cfg.channel_bot_chat = some (c :: rest))
    (hget : env.get_channel (some c) = some ch)
    (hnet : env.internet = true)
    (_hfail : (∃ e, env.cai_response st.cacheFile = Except.error e) ∨
              (∃ s e, env.remove_emoji s = Except.error e) ∨
              env.send_ok = false) :
    (AI_send_message cfg env st).state.awaiting_response = false ∧
    (AI_send_message cfg env st).state.last_message_time = env.now ∧
    (AI_send_message cfg env st).state.cacheFile =
      removeMessages (st.cacheFile ++ env.arrivals) st.cacheFile := by
  have hrc : response_channel_id cfg = Except.ok (some c) := by
    simp [response_channel_id, hchan]
  simp [AI_send_message, hrc, hget, hnet, tryBody_fst_some]

/-- Witness for C3: `Cache=[msg1]`, delivery fails, `msg3` arrived during
dispatch — `awaiting_response` cleared, timestamp refreshed, remainder
persisted. -/
theorem dispatch_failure_still_reconciles_witness :
    (AI_send_message cfgMain envFail ⟨false, 0, [msg1]⟩).state.awaiting_response
        = false ∧
    (AI_send_message cfgMain envFail ⟨false, 0, [msg1]⟩).state.last_message_time
        = envFail.now ∧
    (AI_send_message cfgMain envFail ⟨false, 0, [msg1]⟩).state.cacheFile =
      removeMessages ([msg1] ++ envFail.arrivals) [msg1] :=
  dispatch_failure_still_reconciles cfgMain envFail ⟨false, 0, [msg1]⟩
    99 [] 99 rfl rfl rfl (Or.inr (Or.inr rfl))

/-- C7 (counterexample): a dispatch that finds an empty snapshot is not a
pure no-op — the early `return` at line 138 still runs the `finally`
block, which refreshes `last_message_time` (0 becomes 100 here), contrary
to the claim that no state beyond the entry flag changes. -/
theorem dispatch_empty_snapshot_counterexample :
    (AI_send_message cfgMain envQuiet stEmpty).state.last_message_time ≠
      stEmpty.last_message_time := by
  decide

/-- C7 (amended): on an empty snapshot the dispatch calls no AI, delivers
nothing, raises nothing, and leaves the cache content as the concurrent
arrivals alone (the remainder write rewrites the re-read content
unchanged); but the `finally` block still clears `awaiting_response` and
refreshes `last_message_time`. -/
theorem dispatch_empty_snapshot_behavior (cfg : Config) (env : Env)
    (st : BotState) (c : Nat) (rest : List Nat) (ch : Nat)
    (hchan : cfg.channel_bot_chat = some (c :: rest))
    (hget : env.get_channel (some c) = some ch)
    (hnet : env.internet = true)
    (hempty : st.cacheFile = []) :
    (AI_send_message cfg env st).sent = [] ∧
    (AI_send_message cfg env st).ai_called = false ∧
    (AI_send_message cfg env st).raised = none ∧
    (AI_send_message cfg env st).state.cacheFile = env.arrivals ∧
    (AI_send_message cfg env st).state.awaiting_response = false ∧
    (AI_send_message cfg env st).state.last_message_time = env.now := by
  have hrc : response_channel_id cfg = Except.ok (some c) := by
    simp [response_channel_id, hchan]
  simp [AI_send_message, hrc, hget, hnet, tryBody, hempty, removeMessages]

/-- Witness for C7 (amended): empty cache, `msg3` arrives during the
dispatch and survives. -/
theorem dispatch_empty_snapshot_behavior_witness :
    (AI_send_message cfgMain envFail stEmpty).sent = [] ∧
    (AI_send_message cfgMain envFail stEmpty).ai_called = false ∧
    (AI_send_message cfgMain envFail stEmpty).raised = none ∧
    (AI_send_message cfgMain envFail stEmpty).state.cacheFile =
      envFail.arrivals ∧
    (AI_send_message cfgMain envFail stEmpty).state.awaiting_response = false ∧
    (AI_send_message cfgMain envFail stEmpty).state.last_message_time =
      envFail.now :=
  dispatch_empty_snapshot_behavior cfgMain envFail stEmpty 99 [] 99
    rfl rfl rfl rfl

/-- C5 (code evaluation at the failing input): with internet up,
`Cache=[msg1]` and an unresolvable destination channel, entering
`response_channel.typing()` at line 132 raises `AttributeError` before the
snapshot is read. The `except` at line 163 swallows it — so the critical
log at lines 160-162 never fires, the AI is never called, nothing is sent —
and in the `finally` block the reconciliation itself dies on the unbound
`cached_data` (caught at line 181), so the cache is NOT reconciled:
`msg1` stays. Only `awaiting_response` and `last_message_time` are reset,
contradicting the claimed critical log, generated reply and reconciled
cache. -/
theorem dispatch_channel_not_found_behavior :
    (AI_send_message cfgMain envNoChannel ⟨false, 0, [msg1]⟩).critical_logged
        = false ∧
    (AI_send_message cfgMain envNoChannel ⟨false, 0, [msg1]⟩).ai_called
        = false ∧
    (AI_send_message cfgMain envNoChannel ⟨false, 0, [msg1]⟩).sent = [] ∧
    (AI_send_message cfgMain envNoChannel ⟨false, 0, [msg1]⟩).state.cacheFile
        = [msg1] ∧
    (AI_send_message cfgMain envNoChannel ⟨false, 0, [msg1]⟩).state.cacheFile
        ≠ removeMessages [msg1] [msg1] ∧
    (AI_send_message cfgMain envNoChannel ⟨false, 0, [msg1]⟩).state.awaiting_response
        = false ∧
    (AI_send_message cfgMain envNoChannel ⟨false, 0, [msg1]⟩).state.last_message_time
        = 100 := by
  decide

/-- C4 (code evaluation at the failing input): when `fetch_message` raises,
the `except` at lines 102-104 only logs — the message is never captured in
any form; the cache is unchanged (the claim predicts a capture without
reply context). Only `last_message_time` is refreshed by line 115. -/
theorem collector_reference_failure_drops_message :
    (read_channel_messages cfgCollector 7 (fun _ => Except.error ())
        inboundWithRef 50 ⟨false, 0, []⟩).cacheFile = [] ∧
    (read_channel_messages cfgCollector 7 (fun _ => Except.error ())
        inboundWithRef 50 ⟨false, 0, []⟩).cacheFile ≠
      capture_message [] ⟨"alice", "Alice", "hello there"⟩ none ∧
    (read_channel_messages cfgCollector 7 (fun _ => Except.error ())
        inboundWithRef 50 ⟨false, 0, []⟩).last_message_time = 50 := by
  decide
